import Mathlib

/-!
Verification of the geodetic core of the vector-space CSV converter.

This file is a shallow embedding of src/vector_space/csv_converter.py:
the WGS84 constants, `lla_to_ecef`, `ecef_to_ned`, and the batch driver
`convert_lla_to_ned`, together with a model of the Python float and
exception semantics that the driver relies on.  Real-valued definitions
model the ideal arithmetic; the `PyFloat`/`PyVal` layer models Python's
IEEE-754 doubles (NaN, signed infinities) and the exceptions raised by
the `math` module and by indexing.
-/

namespace VectorSpace

/-- WGS84 semi-major axis in meters (`WGS84_A` in the source). -/
def WGS84_A : ℝ := 6378137.0

/-- WGS84 first eccentricity squared (`WGS84_E2` in the source). -/
def WGS84_E2 : ℝ := 0.00669437999014

/-- Real-arithmetic embedding of `lla_to_ecef` (source lines 54-77):
latitude/longitude in radians, altitude in meters, result in ECEF meters. -/
noncomputable def lla_to_ecef (lat lon alt : ℝ) : ℝ × ℝ × ℝ :=
  let sin_lat := Real.sin lat
  let cos_lat := Real.cos lat
  let sin_lon := Real.sin lon
  let cos_lon := Real.cos lon
  let n := WGS84_A / Real.sqrt (1 - WGS84_E2 * sin_lat * sin_lat)
  ((n + alt) * cos_lat * cos_lon,
   (n + alt) * cos_lat * sin_lon,
   (n * (1 - WGS84_E2) + alt) * sin_lat)

/-- Real-arithmetic embedding of `ecef_to_ned` (source lines 80-115):
rotate the ECEF delta to the reference point into the local NED frame. -/
noncomputable def ecef_to_ned (x y z ref_lat ref_lon ref_alt : ℝ) : ℝ × ℝ × ℝ :=
  let p0 := lla_to_ecef ref_lat ref_lon ref_alt
  let dx := x - p0.1
  let dy := y - p0.2.1
  let dz := z - p0.2.2
  let sin_lat := Real.sin ref_lat
  let cos_lat := Real.cos ref_lat
  let sin_lon := Real.sin ref_lon
  let cos_lon := Real.cos ref_lon
  ((-sin_lat) * cos_lon * dx - sin_lat * sin_lon * dy + cos_lat * dz,
   (-sin_lon) * dx + cos_lon * dy,
   (-cos_lat) * cos_lon * dx - cos_lat * sin_lon * dy - sin_lat * dz)

/-- The full per-point pipeline: geodetic to ECEF, then ECEF to NED with
respect to a geodetic reference point. -/
noncomputable def lla_to_ned (lat lon alt rlat rlon ralt : ℝ) : ℝ × ℝ × ℝ :=
  let p := lla_to_ecef lat lon alt
  ecef_to_ned p.1 p.2.1 p.2.2 rlat rlon ralt

/-- Spec-side definition of the geodetic-to-ECEF conversion, following the
words of the spec (section 4.1): N = a / sqrt(1 - e^2 sin^2 lat), then the
three closed-form products.  Kept separate from `lla_to_ecef`, which is
translated from the source, so that the two can be compared. -/
noncomputable def geodeticToEcefSpec (lat lon alt : ℝ) : ℝ × ℝ × ℝ :=
  let nRad := WGS84_A / Real.sqrt (1 - WGS84_E2 * Real.sin lat ^ 2)
  ((nRad + alt) * Real.cos lat * Real.cos lon,
   (nRad + alt) * Real.cos lat * Real.sin lon,
   (nRad * (1 - WGS84_E2) + alt) * Real.sin lat)

/-- Spec-side definition of the ECEF-to-NED conversion, following the words
of the spec (section 4.2): convert the reference to ECEF, form the deltas,
apply the standard rotation. -/
noncomputable def ecefToNedSpec (x y z ref_lat ref_lon ref_alt : ℝ) : ℝ × ℝ × ℝ :=
  let p0 := geodeticToEcefSpec ref_lat ref_lon ref_alt
  let dx := x - p0.1
  let dy := y - p0.2.1
  let dz := z - p0.2.2
  ((-Real.sin ref_lat) * Real.cos ref_lon * dx
      - Real.sin ref_lat * Real.sin ref_lon * dy + Real.cos ref_lat * dz,
   (-Real.sin ref_lon) * dx + Real.cos ref_lon * dy,
   (-Real.cos ref_lat) * Real.cos ref_lon * dx
      - Real.cos ref_lat * Real.sin ref_lon * dy - Real.sin ref_lat * dz)

lemma e2_nonneg : (0 : ℝ) ≤ WGS84_E2 := by norm_num [WGS84_E2]

lemma e2_lt_one : WGS84_E2 < 1 := by norm_num [WGS84_E2]

/-- The argument of the square root in `lla_to_ecef` is strictly positive
for every real latitude, because the eccentricity squared is below one. -/
lemma sqrt_arg_pos (lat : ℝ) : 0 < 1 - WGS84_E2 * Real.sin lat * Real.sin lat := by
  have h1 : Real.sin lat ≤ 1 := Real.sin_le_one lat
  have h2 : -1 ≤ Real.sin lat := Real.neg_one_le_sin lat
  have h3 : Real.sin lat * Real.sin lat ≤ 1 := by nlinarith
  have h4 : (0 : ℝ) ≤ WGS84_E2 := e2_nonneg
  have h5 : WGS84_E2 < 1 := e2_lt_one
  nlinarith

/-- Converting a point to ECEF and back to NED with itself as the reference
yields exactly (0, 0, 0) in real arithmetic. -/
lemma pipeline_self_zero (lat lon alt : ℝ) :
    lla_to_ned lat lon alt lat lon alt = (0, 0, 0) := by
  simp only [lla_to_ned, ecef_to_ned, lla_to_ecef]
  simp only [sub_self]
  ring_nf

/-- C1: Reference identity (round trip): converting a geodetic reference
point R through the pipeline with R itself as the reference yields
(0, 0, 0), each component within 1e-6 m. -/
theorem reference_identity_round_trip (lat lon alt : ℝ) :
    |(lla_to_ned lat lon alt lat lon alt).1| ≤ 1e-6 ∧
    |(lla_to_ned lat lon alt lat lon alt).2.1| ≤ 1e-6 ∧
    |(lla_to_ned lat lon alt lat lon alt).2.2| ≤ 1e-6 := by
  rw [pipeline_self_zero]
  norm_num

/-- C3: `lla_to_ecef` computes exactly the closed-form of the spec:
N = a / sqrt(1 - e^2 sin^2 lat), x = (N + alt) cos lat cos lon,
y = (N + alt) cos lat sin lon, z = (N (1 - e^2) + alt) sin lat. -/
theorem lla_to_ecef_matches_spec (lat lon alt : ℝ) :
    lla_to_ecef lat lon alt = geodeticToEcefSpec lat lon alt := by
  simp only [lla_to_ecef, geodeticToEcefSpec, pow_two, mul_assoc]

/-- C4: `ecef_to_ned` computes exactly the delta-and-rotate closed form of
the spec: deltas against the reference converted through `lla_to_ecef`,
then the standard ECEF-to-NED rotation at the reference. -/
theorem ecef_to_ned_matches_spec (x y z rlat rlon ralt : ℝ) :
    ecef_to_ned x y z rlat rlon ralt = ecefToNedSpec x y z rlat rlon ralt := by
  simp only [ecef_to_ned, ecefToNedSpec, ← lla_to_ecef_matches_spec]

/-- At the equator with zero longitude, the square-root argument is 1 and
the conversion collapses to (a + alt, 0, 0). -/
lemma lla_to_ecef_equator (alt : ℝ) : lla_to_ecef 0 0 alt = (WGS84_A + alt, 0, 0) := by
  simp [lla_to_ecef, Real.sin_zero, Real.cos_zero, Real.sqrt_one]

/-- C8: Equatorial behaviour: `lla_to_ecef 0 0 0` equals (a, 0, 0) within
1 m, and for every altitude h the x component of `lla_to_ecef 0 0 h`
equals a + h within 1 m. -/
theorem lla_to_ecef_equatorial_bounds :
    |(lla_to_ecef 0 0 0).1 - WGS84_A| ≤ 1 ∧
    |(lla_to_ecef 0 0 0).2.1| ≤ 1 ∧
    |(lla_to_ecef 0 0 0).2.2| ≤ 1 ∧
    ∀ h : ℝ, |(lla_to_ecef 0 0 h).1 - (WGS84_A + h)| ≤ 1 := by
  refine ⟨?_, ?_, ?_, ?_⟩
  · rw [lla_to_ecef_equator]; norm_num
  · rw [lla_to_ecef_equator]; norm_num
  · rw [lla_to_ecef_equator]; norm_num
  · intro h; rw [lla_to_ecef_equator]; norm_num

/-- The Python exceptions the converter code can raise on the modelled
paths: TypeError (operations on a non-numeric cell, or indexing a string
with a string key), ValueError (`math.sin`/`math.cos`/`math.sqrt` domain
errors), KeyError (missing dict key), IndexError (`.iloc[0]` on an empty
column), ZeroDivisionError (float division by zero). -/
inductive PyErr
  | typeError
  | valueError
  | keyError
  | indexError
  | zeroDivisionError
deriving DecidableEq

/-- A Python float as IEEE-754 double, idealised: a finite real, NaN, or a
signed infinity.  (Finite-range overflow and signed zero are idealised
away; none of the verified claims depends on them.) -/
inductive PyFloat
  | finite (x : ℝ)
  | nan
  | inf
  | neginf

/-- A cell value in a DataFrame column: a float or a non-numeric string. -/
inductive PyVal
  | num (f : PyFloat)
  | str (s : String)

/-- Python float negation. -/
def pyNeg : PyFloat → PyFloat
  | .finite x => .finite (-x)
  | .nan => .nan
  | .inf => .neginf
  | .neginf => .inf

/-- Python float addition (IEEE-754: NaN propagates; inf + (-inf) = NaN). -/
def pyAdd : PyFloat → PyFloat → PyFloat
  | .nan, _ => .nan
  | _, .nan => .nan
  | .finite x, .finite y => .finite (x + y)
  | .inf, .neginf => .nan
  | .neginf, .inf => .nan
  | .inf, _ => .inf
  | _, .inf => .inf
  | .neginf, _ => .neginf
  | _, .neginf => .neginf

/-- Python float subtraction (IEEE-754: NaN propagates; inf - inf = NaN). -/
def pySub : PyFloat → PyFloat → PyFloat
  | .nan, _ => .nan
  | _, .nan => .nan
  | .finite x, .finite y => .finite (x - y)
  | .inf, .inf => .nan
  | .neginf, .neginf => .nan
  | .inf, _ => .inf
  | _, .inf => .neginf
  | .neginf, _ => .neginf
  | _, .neginf => .inf

/-- Python float multiplication (IEEE-754: NaN propagates; inf * 0 = NaN,
otherwise infinities follow the sign of the finite factor). -/
noncomputable def pyMul : PyFloat → PyFloat → PyFloat
  | .nan, _ => .nan
  | _, .nan => .nan
  | .finite x, .finite y => .finite (x * y)
  | .inf, .finite y => if 0 < y then .inf else if y < 0 then .neginf else .nan
  | .finite x, .inf => if 0 < x then .inf else if x < 0 then .neginf else .nan
  | .neginf, .finite y => if 0 < y then .neginf else if y < 0 then .inf else .nan
  | .finite x, .neginf => if 0 < x then .neginf else if x < 0 then .inf else .nan
  | .inf, .inf => .inf
  | .inf, .neginf => .neginf
  | .neginf, .inf => .neginf
  | .neginf, .neginf => .inf

/-- Python float division: raises ZeroDivisionError when the divisor is
(finite) zero, otherwise follows IEEE-754 (NaN propagates, finite over
infinite is zero, infinite over infinite is NaN). -/
noncomputable def pyDiv (a b : PyFloat) : Except PyErr PyFloat :=
  match b with
  | .finite y =>
      if y = 0 then .error .zeroDivisionError
      else
        match a with
        | .finite x => .ok (.finite (x / y))
        | .nan => .ok .nan
        | .inf => .ok (if 0 < y then .inf else .neginf)
        | .neginf => .ok (if 0 < y then .neginf else .inf)
  | .nan => .ok .nan
  | .inf =>
      match a with
      | .finite _ => .ok (.finite 0)
      | _ => .ok .nan
  | .neginf =>
      match a with
      | .finite _ => .ok (.finite 0)
      | _ => .ok .nan

/-- Model of `math.sqrt` on a Python float: ValueError on a negative or minus
infinity argument, NaN on NaN, inf on inf. -/
noncomputable def pySqrt : PyFloat → Except PyErr PyFloat
  | .finite x => if x < 0 then .error .valueError else .ok (.finite (Real.sqrt x))
  | .nan => .ok .nan
  | .inf => .ok .inf
  | .neginf => .error .valueError

/-- Model of `math.sin` applied to a DataFrame cell: TypeError on a string,
ValueError on an infinity, NaN on NaN. -/
noncomputable def pySin : PyVal → Except PyErr PyFloat
  | .num (.finite x) => .ok (.finite (Real.sin x))
  | .num .nan => .ok .nan
  | .num .inf => .error .valueError
  | .num .neginf => .error .valueError
  | .str _ => .error .typeError

/-- Model of `math.cos` applied to a DataFrame cell: TypeError on a string,
ValueError on an infinity, NaN on NaN. -/
noncomputable def pyCos : PyVal → Except PyErr PyFloat
  | .num (.finite x) => .ok (.finite (Real.cos x))
  | .num .nan => .ok .nan
  | .num .inf => .error .valueError
  | .num .neginf => .error .valueError
  | .str _ => .error .typeError

/-- Adding a float and a DataFrame cell (`n + alt` in the source):
TypeError when the cell is a string. -/
def pyAddCell (a : PyFloat) : PyVal → Except PyErr PyFloat
  | .num f => .ok (pyAdd a f)
  | .str _ => .error .typeError

/-- Python-semantics embedding of `lla_to_ecef` (source lines 54-77),
operating on raw DataFrame cells and surfacing the exceptions the Python
code would raise, in the order the Python code would raise them. -/
noncomputable def lla_to_ecefPy (lat lon alt : PyVal) :
    Except PyErr (PyFloat × PyFloat × PyFloat) := do
  let sin_lat ← pySin lat
  let cos_lat ← pyCos lat
  let sin_lon ← pySin lon
  let cos_lon ← pyCos lon
  let sq ← pySqrt (pySub (.finite 1) (pyMul (pyMul (.finite WGS84_E2) sin_lat) sin_lat))
  let n ← pyDiv (.finite WGS84_A) sq
  let nPlusAlt ← pyAddCell n alt
  let x := pyMul (pyMul nPlusAlt cos_lat) cos_lon
  let y := pyMul (pyMul nPlusAlt cos_lat) sin_lon
  let zBase ← pyAddCell (pyMul n (pySub (.finite 1) (.finite WGS84_E2))) alt
  let z := pyMul zBase sin_lat
  return (x, y, z)

/-- Python-semantics embedding of `ecef_to_ned` (source lines 80-115):
reference cells are converted through `lla_to_ecefPy` first, exactly as in
the source. -/
noncomputable def ecef_to_nedPy (x y z : PyFloat) (ref_lat ref_lon ref_alt : PyVal) :
    Except PyErr (PyFloat × PyFloat × PyFloat) := do
  let p0 ← lla_to_ecefPy ref_lat ref_lon ref_alt
  let dx := pySub x p0.1
  let dy := pySub y p0.2.1
  let dz := pySub z p0.2.2
  let sin_lat ← pySin ref_lat
  let cos_lat ← pyCos ref_lat
  let sin_lon ← pySin ref_lon
  let cos_lon ← pyCos ref_lon
  let north := pyAdd (pySub (pyMul (pyMul (pyNeg sin_lat) cos_lon) dx)
      (pyMul (pyMul sin_lat sin_lon) dy)) (pyMul cos_lat dz)
  let east := pyAdd (pyMul (pyNeg sin_lon) dx) (pyMul cos_lon dy)
  let down := pySub (pySub (pyMul (pyMul (pyNeg cos_lat) cos_lon) dx)
      (pyMul (pyMul cos_lat sin_lon) dy)) (pyMul sin_lat dz)
  return (north, east, down)

/-- An input DataFrame row for `convert_lla_to_ned`: the three position
cells `pos_lat`, `pos_lon`, `pos_alt` plus the row's remaining columns,
abstracted as a value of type alpha. -/
structure RowLLA (α : Type) where
  pos_lat : PyVal
  pos_lon : PyVal
  pos_alt : PyVal
  rest : α

/-- An output row of `convert_lla_to_ned`: the LLA cells are gone, the
NED columns `pos_north`, `pos_east`, `pos_down` are present, and the
remaining columns are carried over unchanged. -/
structure RowNED (α : Type) where
  pos_north : PyFloat
  pos_east : PyFloat
  pos_down : PyFloat
  rest : α

/-- The `ref_config` argument of `convert_lla_to_ned`: either a string, or
a dict whose `lat`/`lon`/`alt` keys may each be present or absent. -/
inductive RefConfig
  | str (s : String)
  | dict (lat lon alt : Option PyVal)

/-- Reference-point resolution as the source performs it (lines 135-143):
`ref_config == "first"` takes the first row (IndexError from `.iloc[0]`
when the frame is empty); any other string falls into the dict branch and
raises TypeError on `ref_config["lat"]`; a dict is read key by key,
raising KeyError at the first missing key. -/
def resolveRef {α : Type} (cfg : RefConfig) (df : List (RowLLA α)) :
    Except PyErr (PyVal × PyVal × PyVal) :=
  match cfg with
  | .str s =>
      if s = "first" then
        match df with
        | [] => .error .indexError
        | r :: _ => .ok (r.pos_lat, r.pos_lon, r.pos_alt)
      else .error .typeError
  | .dict lat lon alt => do
      let rlat ← match lat with
        | some v => Except.ok v
        | none => Except.error PyErr.keyError
      let rlon ← match lon with
        | some v => Except.ok v
        | none => Except.error PyErr.keyError
      let ralt ← match alt with
        | some v => Except.ok v
        | none => Except.error PyErr.keyError
      return (rlat, rlon, ralt)

/-- One iteration of the row loop in `convert_lla_to_ned` (source lines
150-163): LLA to ECEF, then ECEF to NED against the resolved reference;
the row's other columns are untouched. -/
noncomputable def rowToNed {α : Type} (ref : PyVal × PyVal × PyVal) (r : RowLLA α) :
    Except PyErr (RowNED α) := do
  let p ← lla_to_ecefPy r.pos_lat r.pos_lon r.pos_alt
  let ned ← ecef_to_nedPy p.1 p.2.1 p.2.2 ref.1 ref.2.1 ref.2.2
  return ⟨ned.1, ned.2.1, ned.2.2, r.rest⟩

/-- The row loop of `convert_lla_to_ned`: rows are processed in order and
an exception aborts the whole batch with no output. -/
noncomputable def convertRows {α : Type} (ref : PyVal × PyVal × PyVal) :
    List (RowLLA α) → Except PyErr (List (RowNED α))
  | [] => .ok []
  | r :: rs => do
    let nr ← rowToNed ref r
    let rest ← convertRows ref rs
    return (nr :: rest)

/-- Embedding of `convert_lla_to_ned` (source lines 118-173): resolve the
reference point, then convert every row in order. -/
noncomputable def convert_lla_to_ned {α : Type} (cfg : RefConfig) (df : List (RowLLA α)) :
    Except PyErr (List (RowNED α)) := do
  let ref ← resolveRef cfg df
  convertRows ref df

@[simp] lemma except_bind_ok {ε α β : Type} (a : α) (f : α → Except ε β) :
    (Except.ok a : Except ε α) >>= f = f a := rfl

@[simp] lemma except_bind_error {ε α β : Type} (e : ε) (f : α → Except ε β) :
    (Except.error e : Except ε α) >>= f = Except.error e := rfl

@[simp] lemma except_pure_eq {ε α : Type} (a : α) :
    (pure a : Except ε α) = Except.ok a := rfl

/-- On finite cells, `lla_to_ecefPy` raises nothing and computes exactly
the real-arithmetic `lla_to_ecef`. -/
lemma lla_to_ecefPy_finite (lat lon alt : ℝ) :
    lla_to_ecefPy (.num (.finite lat)) (.num (.finite lon)) (.num (.finite alt)) =
      Except.ok (.finite (lla_to_ecef lat lon alt).1,
        .finite (lla_to_ecef lat lon alt).2.1,
        .finite (lla_to_ecef lat lon alt).2.2) := by
  have hpos := sqrt_arg_pos lat
  have hnneg : ¬ (1 - WGS84_E2 * Real.sin lat * Real.sin lat < 0) := not_lt.mpr hpos.le
  have hne : ¬ (Real.sqrt (1 - WGS84_E2 * Real.sin lat * Real.sin lat) = 0) :=
    ne_of_gt (Real.sqrt_pos.mpr hpos)
  simp [lla_to_ecefPy, pySin, pyCos, pySqrt, pyDiv, pySub, pyMul, pyAdd, pyAddCell,
    hnneg, hne, lla_to_ecef]

/-- On finite inputs, `ecef_to_nedPy` raises nothing and computes exactly
the real-arithmetic `ecef_to_ned`. -/
lemma ecef_to_nedPy_finite (x y z rlat rlon ralt : ℝ) :
    ecef_to_nedPy (.finite x) (.finite y) (.finite z)
        (.num (.finite rlat)) (.num (.finite rlon)) (.num (.finite ralt)) =
      Except.ok (.finite (ecef_to_ned x y z rlat rlon ralt).1,
        .finite (ecef_to_ned x y z rlat rlon ralt).2.1,
        .finite (ecef_to_ned x y z rlat rlon ralt).2.2) := by
  simp [ecef_to_nedPy, lla_to_ecefPy_finite, pySin, pyCos, pySub, pyAdd, pyMul, pyNeg,
    ecef_to_ned]

/-- On a row of finite cells with a finite reference, one loop iteration
raises nothing and computes the real-arithmetic pipeline, carrying the
row's other columns over unchanged. -/
lemma rowToNed_finite {α : Type} (lat lon alt rlat rlon ralt : ℝ) (rest : α) :
    rowToNed (.num (.finite rlat), .num (.finite rlon), .num (.finite ralt))
        ⟨.num (.finite lat), .num (.finite lon), .num (.finite alt), rest⟩ =
      Except.ok ⟨.finite (lla_to_ned lat lon alt rlat rlon ralt).1,
        .finite (lla_to_ned lat lon alt rlat rlon ralt).2.1,
        .finite (lla_to_ned lat lon alt rlat rlon ralt).2.2, rest⟩ := by
  simp [rowToNed, lla_to_ecefPy_finite, ecef_to_nedPy_finite, lla_to_ned]

/-- C9: `lla_to_ecef` never fails: for every finite real latitude,
longitude and altitude the square-root argument 1 - e^2 sin^2(lat) is
strictly positive (e^2 < 1), and the Python-semantics conversion raises no
exception and returns the finite real-arithmetic result. -/
theorem lla_to_ecef_total (lat lon alt : ℝ) :
    0 < 1 - WGS84_E2 * Real.sin lat * Real.sin lat ∧ WGS84_E2 < 1 ∧
    lla_to_ecefPy (.num (.finite lat)) (.num (.finite lon)) (.num (.finite alt)) =
      Except.ok (.finite (lla_to_ecef lat lon alt).1,
        .finite (lla_to_ecef lat lon alt).2.1,
        .finite (lla_to_ecef lat lon alt).2.2) :=
  ⟨sqrt_arg_pos lat, e2_lt_one, lla_to_ecefPy_finite lat lon alt⟩

/-- C2: Reference mode "first" on an empty stream signals an error (the
`.iloc[0]` IndexError) with no row computed and no default substituted;
on every non-empty stream the reference resolves to the geodetic point of
the first sample. -/
theorem first_mode_reference_policy {α : Type} :
    convert_lla_to_ned (RefConfig.str "first") ([] : List (RowLLA α)) =
        Except.error PyErr.indexError ∧
    ∀ (r : RowLLA α) (rs : List (RowLLA α)),
      resolveRef (RefConfig.str "first") (r :: rs) =
        Except.ok (r.pos_lat, r.pos_lon, r.pos_alt) := by
  constructor
  · simp [convert_lla_to_ned, resolveRef]
  · intro r rs
    simp [resolveRef]

/-- A reference specification that is neither the string "first" nor a
complete explicit lat/lon/alt triple. -/
def invalidRefConfig : RefConfig → Prop
  | .str s => s ≠ "first"
  | .dict lat lon alt => lat = none ∨ lon = none ∨ alt = none

/-- C7: an invalid reference specification makes reference resolution fail
(TypeError for a non-"first" string, KeyError for an incomplete dict), and
`convert_lla_to_ned` surfaces exactly that error with no row computed. -/
theorem invalid_config_fails_before_rows {α : Type} (cfg : RefConfig)
    (df : List (RowLLA α)) (h : invalidRefConfig cfg) :
    ∃ e, resolveRef cfg df = Except.error e ∧
      convert_lla_to_ned cfg df = Except.error e := by
  have hres : ∃ e, resolveRef cfg df = Except.error e := by
    cases cfg with
    | str s =>
        simp only [invalidRefConfig] at h
        exact ⟨.typeError, by simp [resolveRef, h]⟩
    | dict lat lon alt =>
        simp only [invalidRefConfig] at h
        refine ⟨.keyError, ?_⟩
        rcases lat with _ | v
        · simp [resolveRef]
        · rcases lon with _ | w
          · simp [resolveRef]
          · rcases alt with _ | u
            · simp [resolveRef]
            · exact absurd h (by simp)
  obtain ⟨e, he⟩ := hres
  exact ⟨e, he, by simp [convert_lla_to_ned, he]⟩

/-- Witness for C7 at the concrete invalid specification given by the
string "explicit" and the empty stream. -/
theorem invalid_config_fails_witness :
    ∃ e, resolveRef (RefConfig.str "explicit") ([] : List (RowLLA Unit)) =
        Except.error e ∧
      convert_lla_to_ned (RefConfig.str "explicit") ([] : List (RowLLA Unit)) =
        Except.error e :=
  invalid_config_fails_before_rows (RefConfig.str "explicit") []
    (by simp [invalidRefConfig])

/-- The row loop, run on its own: on success the output list is parallel
to the input list, row for row. -/
lemma convertRows_ok {α : Type} (ref : PyVal × PyVal × PyVal) :
    ∀ (df : List (RowLLA α)) (out : List (RowNED α)),
      convertRows ref df = Except.ok out →
      out.length = df.length ∧
      ∀ (i : ℕ) (hi : i < df.length) (ho : i < out.length),
        rowToNed ref (df.get ⟨i, hi⟩) = Except.ok (out.get ⟨i, ho⟩) := by
  intro df
  induction df with
  | nil =>
      intro out h
      simp only [convertRows, Except.ok.injEq] at h
      subst h
      exact ⟨rfl, fun i hi _ => absurd hi (Nat.not_lt_zero i)⟩
  | cons r rs ih =>
      intro out h
      simp only [convertRows] at h
      cases hr : rowToNed ref r with
      | error e =>
          rw [hr, except_bind_error] at h
          exact Except.noConfusion h
      | ok nr =>
          rw [hr, except_bind_ok] at h
          cases hrs : convertRows ref rs with
          | error e =>
              rw [hrs, except_bind_error] at h
              exact Except.noConfusion h
          | ok rest =>
              rw [hrs, except_bind_ok, except_pure_eq] at h
              obtain ⟨hlen, hget⟩ := ih rest hrs
              cases h
              refine ⟨by simp [hlen], ?_⟩
              intro i hi ho
              cases i with
              | zero => simpa using hr
              | succ j =>
                  simp only [List.length_cons, Nat.succ_lt_succ_iff] at hi ho
                  simpa using hget j hi ho

/-- C5: order preservation: whenever the batch conversion succeeds, it
produced exactly one output row per input row, and output row i is the
NED conversion of input row i under the single resolved reference. -/
theorem convert_order_preserving {α : Type} (cfg : RefConfig) (df : List (RowLLA α))
    (out : List (RowNED α)) (h : convert_lla_to_ned cfg df = Except.ok out) :
    ∃ ref, resolveRef cfg df = Except.ok ref ∧ out.length = df.length ∧
      ∀ (i : ℕ) (hi : i < df.length) (ho : i < out.length),
        rowToNed ref (df.get ⟨i, hi⟩) = Except.ok (out.get ⟨i, ho⟩) := by
  unfold convert_lla_to_ned at h
  cases hr : resolveRef cfg df with
  | error e =>
      rw [hr, except_bind_error] at h
      exact Except.noConfusion h
  | ok ref =>
      rw [hr, except_bind_ok] at h
      exact ⟨ref, rfl, convertRows_ok ref df out h⟩

/-- Witness for C5 at a concrete input: an explicit finite reference and
the empty stream convert successfully, and the conclusion holds there. -/
theorem convert_order_preserving_witness :
    ∃ ref, resolveRef
        (RefConfig.dict (some (.num (.finite 0))) (some (.num (.finite 0)))
          (some (.num (.finite 0)))) ([] : List (RowLLA Unit)) = Except.ok ref ∧
      ([] : List (RowNED Unit)).length = ([] : List (RowLLA Unit)).length ∧
      ∀ (i : ℕ) (hi : i < ([] : List (RowLLA Unit)).length)
        (ho : i < ([] : List (RowNED Unit)).length),
        rowToNed ref (([] : List (RowLLA Unit)).get ⟨i, hi⟩) =
          Except.ok (([] : List (RowNED Unit)).get ⟨i, ho⟩) :=
  convert_order_preserving _ [] []
    (by simp [convert_lla_to_ned, resolveRef, convertRows])

/-- A successful loop iteration never touches the row's other columns. -/
lemma rowToNed_rest {α : Type} (ref : PyVal × PyVal × PyVal) (r : RowLLA α)
    (nr : RowNED α) (h : rowToNed ref r = Except.ok nr) : nr.rest = r.rest := by
  unfold rowToNed at h
  cases hp : lla_to_ecefPy r.pos_lat r.pos_lon r.pos_alt with
  | error e =>
      rw [hp, except_bind_error] at h
      exact Except.noConfusion h
  | ok p =>
      rw [hp, except_bind_ok] at h
      cases hn : ecef_to_nedPy p.1 p.2.1 p.2.2 ref.1 ref.2.1 ref.2.2 with
      | error e =>
          rw [hn, except_bind_error] at h
          exact Except.noConfusion h
      | ok ned =>
          rw [hn, except_bind_ok, except_pure_eq] at h
          cases h
          rfl

/-- C10: frame property: on success the output has the same number of
rows as the input, each output row carries the NED columns in place of
the LLA columns (by the shape of `RowNED` versus `RowLLA`), and every
other column of every row is unchanged. -/
theorem convert_frame_effect {α : Type} (cfg : RefConfig) (df : List (RowLLA α))
    (out : List (RowNED α)) (h : convert_lla_to_ned cfg df = Except.ok out) :
    out.length = df.length ∧
    ∀ (i : ℕ) (hi : i < df.length) (ho : i < out.length),
      (out.get ⟨i, ho⟩).rest = (df.get ⟨i, hi⟩).rest := by
  unfold convert_lla_to_ned at h
  cases hr : resolveRef cfg df with
  | error e =>
      rw [hr, except_bind_error] at h
      exact Except.noConfusion h
  | ok ref =>
      rw [hr, except_bind_ok] at h
      obtain ⟨hlen, hget⟩ := convertRows_ok ref df out h
      exact ⟨hlen, fun i hi ho => rowToNed_rest ref _ _ (hget i hi ho)⟩

/-- Concrete reference configuration used by the frame-effect witness. -/
noncomputable def frameDemoCfg : RefConfig :=
  .dict (some (.num (.finite 1))) (some (.num (.finite 2))) (some (.num (.finite 3)))

/-- Concrete one-row input used by the frame-effect witness; the non-LLA
columns of the row are modelled by the value `true`. -/
noncomputable def frameDemoRow : RowLLA Bool :=
  ⟨.num (.finite 1), .num (.finite 0), .num (.finite 7), true⟩

/-- The output the converter produces on `frameDemoRow`. -/
noncomputable def frameDemoOut : List (RowNED Bool) :=
  [⟨.finite (lla_to_ned 1 0 7 1 2 3).1, .finite (lla_to_ned 1 0 7 1 2 3).2.1,
    .finite (lla_to_ned 1 0 7 1 2 3).2.2, true⟩]

/-- Witness for C10 at a concrete one-row input with an explicit finite
reference: the conversion succeeds and the row's other columns survive. -/
theorem convert_frame_effect_witness :
    convert_lla_to_ned frameDemoCfg [frameDemoRow] = Except.ok frameDemoOut ∧
    frameDemoOut.length = [frameDemoRow].length ∧
    (frameDemoOut.get ⟨0, by simp [frameDemoOut]⟩).rest =
      ([frameDemoRow].get ⟨0, by simp⟩).rest := by
  have h : convert_lla_to_ned frameDemoCfg [frameDemoRow] = Except.ok frameDemoOut := by
    simp [convert_lla_to_ned, resolveRef, convertRows, frameDemoCfg, frameDemoRow,
      frameDemoOut, rowToNed_finite]
  refine ⟨h, (convert_frame_effect _ _ _ h).1, ?_⟩
  exact (convert_frame_effect _ _ _ h).2 0 (by simp) (by simp [frameDemoOut])

/-- A DataFrame cell that is not a number. -/
def nonNumericCell : PyVal → Prop
  | .str _ => True
  | .num _ => False

/-- A DataFrame cell holding an infinite float. -/
def infiniteCell : PyVal → Prop
  | .num .inf => True
  | .num .neginf => True
  | .num (.finite _) => False
  | .num .nan => False
  | .str _ => False

/-- A row on which the Python row computation raises: a non-numeric
latitude, longitude or altitude (TypeError), or an infinite latitude or
longitude (ValueError from `math.sin`). -/
def malformedRow {α : Type} (r : RowLLA α) : Prop :=
  nonNumericCell r.pos_lat ∨ infiniteCell r.pos_lat ∨
  nonNumericCell r.pos_lon ∨ infiniteCell r.pos_lon ∨
  nonNumericCell r.pos_alt

lemma pySqrt_arg_eval (x : ℝ) :
    pySqrt (.finite (1 - WGS84_E2 * Real.sin x * Real.sin x)) =
      Except.ok (.finite (Real.sqrt (1 - WGS84_E2 * Real.sin x * Real.sin x))) := by
  simp [pySqrt, not_lt.mpr (sqrt_arg_pos x).le]

lemma pyDiv_sqrt_eval (x : ℝ) :
    pyDiv (.finite WGS84_A) (.finite (Real.sqrt (1 - WGS84_E2 * Real.sin x * Real.sin x))) =
      Except.ok (.finite (WGS84_A / Real.sqrt (1 - WGS84_E2 * Real.sin x * Real.sin x))) := by
  simp [pyDiv, ne_of_gt (Real.sqrt_pos.mpr (sqrt_arg_pos x))]

/-- On a malformed triple of cells, `lla_to_ecefPy` raises. -/
lemma lla_to_ecefPy_malformed (lat lon alt : PyVal)
    (h : nonNumericCell lat ∨ infiniteCell lat ∨ nonNumericCell lon ∨
      infiniteCell lon ∨ nonNumericCell alt) :
    ∃ e, lla_to_ecefPy lat lon alt = Except.error e := by
  cases lat with
  | str s => exact ⟨.typeError, by simp [lla_to_ecefPy, pySin]⟩
  | num f =>
    cases f with
    | inf => exact ⟨.valueError, by simp [lla_to_ecefPy, pySin]⟩
    | neginf => exact ⟨.valueError, by simp [lla_to_ecefPy, pySin]⟩
    | finite x =>
        simp only [nonNumericCell, infiniteCell, false_or] at h
        cases lon with
        | str s => exact ⟨.typeError, by simp [lla_to_ecefPy, pySin, pyCos]⟩
        | num g =>
          cases g with
          | inf => exact ⟨.valueError, by simp [lla_to_ecefPy, pySin, pyCos]⟩
          | neginf => exact ⟨.valueError, by simp [lla_to_ecefPy, pySin, pyCos]⟩
          | finite y =>
              simp only [nonNumericCell, infiniteCell, false_or] at h
              cases alt with
              | num a => simp [nonNumericCell] at h
              | str s =>
                  exact ⟨.typeError, by simp [lla_to_ecefPy, pySin, pyCos, pySub, pyMul,
                    pySqrt_arg_eval, pyDiv_sqrt_eval, pyAddCell]⟩
          | nan =>
              simp only [nonNumericCell, infiniteCell, false_or] at h
              cases alt with
              | num a => simp [nonNumericCell] at h
              | str s =>
                  exact ⟨.typeError, by simp [lla_to_ecefPy, pySin, pyCos, pySub, pyMul,
                    pySqrt_arg_eval, pyDiv_sqrt_eval, pyAddCell]⟩
    | nan =>
        simp only [nonNumericCell, infiniteCell, false_or] at h
        cases lon with
        | str s => exact ⟨.typeError, by simp [lla_to_ecefPy, pySin, pyCos]⟩
        | num g =>
          cases g with
          | inf => exact ⟨.valueError, by simp [lla_to_ecefPy, pySin, pyCos]⟩
          | neginf => exact ⟨.valueError, by simp [lla_to_ecefPy, pySin, pyCos]⟩
          | finite y =>
              simp only [nonNumericCell, infiniteCell, false_or] at h
              cases alt with
              | num a => simp [nonNumericCell] at h
              | str s =>
                  exact ⟨.typeError, by simp [lla_to_ecefPy, pySin, pyCos, pySub, pyMul,
                    pySqrt, pyDiv, pyAddCell]⟩
          | nan =>
              simp only [nonNumericCell, infiniteCell, false_or] at h
              cases alt with
              | num a => simp [nonNumericCell] at h
              | str s =>
                  exact ⟨.typeError, by simp [lla_to_ecefPy, pySin, pyCos, pySub, pyMul,
                    pySqrt, pyDiv, pyAddCell]⟩

/-- A malformed row makes a loop iteration raise, for every reference. -/
lemma rowToNed_malformed {α : Type} (ref : PyVal × PyVal × PyVal) (r : RowLLA α)
    (h : malformedRow r) : ∃ e, rowToNed ref r = Except.error e := by
  obtain ⟨e, he⟩ := lla_to_ecefPy_malformed r.pos_lat r.pos_lon r.pos_alt h
  exact ⟨e, by simp [rowToNed, he]⟩

/-- A malformed row anywhere in the stream makes the row loop raise. -/
lemma convertRows_malformed {α : Type} (ref : PyVal × PyVal × PyVal) :
    ∀ df : List (RowLLA α), (∃ r ∈ df, malformedRow r) →
      ∃ e, convertRows ref df = Except.error e := by
  intro df
  induction df with
  | nil =>
      rintro ⟨r, hr, -⟩
      exact absurd hr (List.not_mem_nil r)
  | cons a rs ih =>
      rintro ⟨r, hr, hbad⟩
      cases hra : rowToNed ref a with
      | error e => exact ⟨e, by simp [convertRows, hra]⟩
      | ok nr =>
          rcases List.mem_cons.mp hr with rfl | hmem
          · obtain ⟨e, he⟩ := rowToNed_malformed ref r hbad
            rw [hra] at he
            exact Except.noConfusion he
          · obtain ⟨e, he⟩ := ih ⟨r, hmem, hbad⟩
            exact ⟨e, by simp [convertRows, hra, he]⟩

/-- Evaluating `lla_to_ecefPy` on a NaN latitude with finite longitude and altitude:
no exception, the NaN propagates into all three ECEF components. -/
lemma lla_to_ecefPy_nan_lat (lon alt : ℝ) :
    lla_to_ecefPy (.num .nan) (.num (.finite lon)) (.num (.finite alt)) =
      Except.ok (.nan, .nan, .nan) := by
  simp [lla_to_ecefPy, pySin, pyCos, pySqrt, pyDiv, pySub, pyMul, pyAdd, pyAddCell]

/-- Evaluating `ecef_to_nedPy` on an all-NaN target with a finite reference: no
exception, NaN in all three NED components. -/
lemma ecef_to_nedPy_nan (rlat rlon ralt : ℝ) :
    ecef_to_nedPy .nan .nan .nan (.num (.finite rlat)) (.num (.finite rlon))
        (.num (.finite ralt)) = Except.ok (.nan, .nan, .nan) := by
  simp [ecef_to_nedPy, lla_to_ecefPy_finite, pySin, pyCos, pySub, pyAdd, pyMul, pyNeg]

/-- A row with NaN latitude and finite longitude/altitude converts without
an exception, producing an all-NaN output row. -/
lemma rowToNed_nan_lat {α : Type} (lon alt rlat rlon ralt : ℝ) (rest : α) :
    rowToNed (.num (.finite rlat), .num (.finite rlon), .num (.finite ralt))
        ⟨.num .nan, .num (.finite lon), .num (.finite alt), rest⟩ =
      Except.ok ⟨.nan, .nan, .nan, rest⟩ := by
  simp [rowToNed, lla_to_ecefPy_nan_lat, ecef_to_nedPy_nan]

/-- C6 (amended): a row with a non-numeric latitude, longitude or altitude,
or an infinite latitude or longitude, fails the whole batch with an error
and no output is produced; but a NaN coordinate is not rejected: it is
silently propagated into the output row. -/
theorem invalid_sample_policy :
    (∀ (α : Type) (cfg : RefConfig) (df : List (RowLLA α)),
        (∃ r ∈ df, malformedRow r) →
        ∃ e, convert_lla_to_ned cfg df = Except.error e) ∧
    (∀ lon alt rlat rlon ralt : ℝ, ∀ (α : Type) (rest : α),
        convert_lla_to_ned
            (RefConfig.dict (some (.num (.finite rlat))) (some (.num (.finite rlon)))
              (some (.num (.finite ralt))))
            [⟨.num .nan, .num (.finite lon), .num (.finite alt), rest⟩] =
          Except.ok [⟨.nan, .nan, .nan, rest⟩]) := by
  constructor
  · intro α cfg df hbad
    cases hr : resolveRef cfg df with
    | error e => exact ⟨e, by simp [convert_lla_to_ned, hr]⟩
    | ok ref =>
        obtain ⟨e, he⟩ := convertRows_malformed ref df hbad
        exact ⟨e, by simp [convert_lla_to_ned, hr, he]⟩
  · intro lon alt rlat rlon ralt α rest
    simp [convert_lla_to_ned, resolveRef, convertRows, rowToNed_nan_lat]

/-- Witness for C6 (amended) at a concrete input: a row whose latitude
cell is the string "abc" makes the whole batch fail. -/
theorem invalid_sample_policy_witness :
    ∃ e, convert_lla_to_ned (RefConfig.str "first")
        [(⟨.str "abc", .num (.finite 0), .num (.finite 0), ()⟩ : RowLLA Unit)] =
      Except.error e :=
  invalid_sample_policy.1 Unit (RefConfig.str "first")
    [⟨.str "abc", .num (.finite 0), .num (.finite 0), ()⟩]
    ⟨⟨.str "abc", .num (.finite 0), .num (.finite 0), ()⟩, by simp,
      by simp [malformedRow, nonNumericCell]⟩

/-- Concrete explicit reference used by the NaN counterexample. -/
noncomputable def nanDemoCfg : RefConfig :=
  .dict (some (.num (.finite 1))) (some (.num (.finite 2))) (some (.num (.finite 3)))

/-- Concrete one-row stream whose latitude is NaN (not finite). -/
noncomputable def nanDemoRow : RowLLA Unit :=
  ⟨.num .nan, .num (.finite 0), .num (.finite 0), ()⟩

/-- C6 counterexample: at a concrete input whose latitude is NaN (hence
not finite), the batch conversion does NOT fail: it succeeds and emits an
output row containing the NaN, contradicting the claim that such a batch
fails with an error and that no output containing the row is produced. -/
theorem nan_row_not_rejected :
    convert_lla_to_ned nanDemoCfg [nanDemoRow] =
        Except.ok [⟨.nan, .nan, .nan, ()⟩] ∧
    ∀ e, convert_lla_to_ned nanDemoCfg [nanDemoRow] ≠ Except.error e := by
  have h : convert_lla_to_ned nanDemoCfg [nanDemoRow] =
      Except.ok [⟨.nan, .nan, .nan, ()⟩] := by
    simp [convert_lla_to_ned, resolveRef, convertRows, nanDemoCfg, nanDemoRow,
      rowToNed_nan_lat]
  refine ⟨h, fun e he => ?_⟩
  rw [h] at he
  exact Except.noConfusion he

end VectorSpace
